import Mathlib

/-!
Shallow embedding of the Keplerian orbit simulator core
(`kepler_sim.c` and the 3D variant): orbital-element data model,
Kepler solver (fixed ten Newton-Raphson iterations), orbital-plane
position, three-angle rotation into the ecliptic frame, longitude
reduction, and the per-day multi-body time-series loop.

C `double` arithmetic is embedded as exact real arithmetic; the
not-a-number sentinel written on invalid elements is embedded as
`Option.none` (fallible output), every other output as `some r`.
Times (`time_t`) are real-valued seconds; loop counters are integers.
-/

open Real

noncomputable section

/-- Truncation toward zero of a real number, as C casts and `fmod` use it. -/
def rtrunc (r : ℝ) : ℤ := if 0 ≤ r then ⌊r⌋ else ⌈r⌉

/-- C `fmod x y`: the remainder `x - trunc (x / y) * y`, which has the sign
of the dividend `x` (for `y > 0` it lies in `(-y, y)`). -/
def fmod (x y : ℝ) : ℝ := x - y * (rtrunc (x / y) : ℝ)

/-- C `atan2 y x`: the argument of the point `(x, y)`, in `(-π, π]`,
with `atan2 0 0 = 0`, embedded via the complex argument. -/
def atan2 (y x : ℝ) : ℝ := Complex.arg ⟨x, y⟩

/-- Denominator `1 - e·cos E` of the Newton-Raphson update in the
Kepler solver (line `E_rad = E_rad - (...) / (1 - e * cos(E_rad))`). -/
def newtonDenom (e E : ℝ) : ℝ := 1 - e * Real.cos E

/-- One Newton-Raphson step of the Kepler solver:
`E ← E - (E - e·sin E - M) / (1 - e·cos E)`. -/
def newtonStep (e M E : ℝ) : ℝ := E - (E - e * Real.sin E - M) / newtonDenom e E

/-- The solver loop after `n` passes: `E₀ = M`, then `n` Newton-Raphson
updates (the C `for (int i = 0; i < 10; i++)` body, run `n` times). -/
def iterNewton (e M : ℝ) : ℕ → ℝ
  | 0 => M
  | n + 1 => newtonStep e M (iterNewton e M n)

/-- The Kepler solver: exactly ten Newton-Raphson passes, no convergence
test, no early exit. -/
def kepler_E (e M : ℝ) : ℝ := iterNewton e M 10

/-- `struct Planet` of the 2D variant (`kepler_sim.c`): name, Horizons id,
six orbital elements and the epoch at which they are valid. -/
structure Planet where
  name : String
  id : String
  eccentricity : ℝ
  semi_major_axis_au : ℝ
  inclination_deg : ℝ
  lon_asc_node_deg : ℝ
  arg_periapsis_deg : ℝ
  mean_anomaly_deg : ℝ
  epoch : ℝ

/-- `difftime(current_date, planet->epoch) / SECONDS_IN_DAY`. -/
def days_since_epoch (p : Planet) (t : ℝ) : ℝ := (t - p.epoch) / 86400

/-- `360.0 / (sqrt(pow(a, 3)) * 365.25)` — mean motion in degrees/day. -/
def mean_motion (p : Planet) : ℝ :=
  360 / (Real.sqrt (p.semi_major_axis_au ^ 3) * 365.25)

/-- `fmod(planet->mean_anomaly_deg + mean_motion * days_since_epoch, 360.0)`. -/
def mean_anomaly (p : Planet) (t : ℝ) : ℝ :=
  fmod (p.mean_anomaly_deg + mean_motion p * days_since_epoch p t) 360

/-- `mean_anomaly * M_PI / 180.0`. -/
def M_rad (p : Planet) (t : ℝ) : ℝ := mean_anomaly p t * Real.pi / 180

/-- The eccentric anomaly produced by the ten-pass solver loop. -/
def E_rad (p : Planet) (t : ℝ) : ℝ := kepler_E p.eccentricity (M_rad p t)

/-- `a * (cos(E_rad) - e)`. -/
def x_orb (p : Planet) (t : ℝ) : ℝ :=
  p.semi_major_axis_au * (Real.cos (E_rad p t) - p.eccentricity)

/-- `a * sqrt(1 - e*e) * sin(E_rad)`. -/
def y_orb (p : Planet) (t : ℝ) : ℝ :=
  p.semi_major_axis_au * Real.sqrt (1 - p.eccentricity * p.eccentricity) *
    Real.sin (E_rad p t)

/-- `arg_periapsis_deg * M_PI / 180.0`. -/
def w_rad (p : Planet) : ℝ := p.arg_periapsis_deg * Real.pi / 180

/-- `lon_asc_node_deg * M_PI / 180.0`. -/
def N_rad (p : Planet) : ℝ := p.lon_asc_node_deg * Real.pi / 180

/-- `inclination_deg * M_PI / 180.0`. -/
def i_rad (p : Planet) : ℝ := p.inclination_deg * Real.pi / 180

/-- `x_ecl = x_orb*(cosW cosN - sinW sinN cosI) - y_orb*(sinW cosN + cosW sinN cosI)`. -/
def x_ecl (p : Planet) (t : ℝ) : ℝ :=
  x_orb p t * (Real.cos (w_rad p) * Real.cos (N_rad p) -
      Real.sin (w_rad p) * Real.sin (N_rad p) * Real.cos (i_rad p)) -
  y_orb p t * (Real.sin (w_rad p) * Real.cos (N_rad p) +
      Real.cos (w_rad p) * Real.sin (N_rad p) * Real.cos (i_rad p))

/-- `y_ecl = x_orb*(cosW sinN + sinW cosN cosI) + y_orb*(-sinW sinN + cosW cosN cosI)`. -/
def y_ecl (p : Planet) (t : ℝ) : ℝ :=
  x_orb p t * (Real.cos (w_rad p) * Real.sin (N_rad p) +
      Real.sin (w_rad p) * Real.cos (N_rad p) * Real.cos (i_rad p)) +
  y_orb p t * (-Real.sin (w_rad p) * Real.sin (N_rad p) +
      Real.cos (w_rad p) * Real.cos (N_rad p) * Real.cos (i_rad p))

/-- `z = x_orb*(sinW sinI) + y_orb*(cosW sinI)` (3D variant only). -/
def z_ecl (p : Planet) (t : ℝ) : ℝ :=
  x_orb p t * (Real.sin (w_rad p) * Real.sin (i_rad p)) +
  y_orb p t * (Real.cos (w_rad p) * Real.sin (i_rad p))

/-- `atan2(y_ecl, x_ecl)`. -/
def longitude_rad (p : Planet) (t : ℝ) : ℝ := atan2 (y_ecl p t) (x_ecl p t)

/-- `longitude_rad * (180.0 / M_PI)`. -/
def longitude_deg (p : Planet) (t : ℝ) : ℝ := longitude_rad p t * (180 / Real.pi)

/-- `if (longitude_deg < 0) longitude_deg += 360;` — the returned value. -/
def longitude_deg_final (p : Planet) (t : ℝ) : ℝ :=
  if longitude_deg p t < 0 then longitude_deg p t + 360 else longitude_deg p t

/-- `calculate_longitude` of `kepler_sim.c`: `NAN` (embedded as `none`)
when `semi_major_axis_au <= 0`, otherwise the reduced longitude. -/
def calculate_longitude (p : Planet) (t : ℝ) : Option ℝ :=
  if p.semi_major_axis_au ≤ 0 then none else some (longitude_deg_final p t)

/-- Follows the spec's words, for refinement comparison only:
`normalize360 x` is the representative of `x` modulo `360` in `[0, 360)`,
i.e. `x - 360·⌊x/360⌋`. -/
def spec_normalize360 (x : ℝ) : ℝ := x - 360 * (⌊x / 360⌋ : ℝ)

/-- `struct Planet` of the 3D variant (`kepler_sim_3d.c`): the same
element fields plus the derived position fields `x, y, z` written by
`calculate_position` (`NAN` embedded as `none`). -/
structure Planet3D where
  name : String
  id : String
  eccentricity : ℝ
  semi_major_axis_au : ℝ
  inclination_deg : ℝ
  lon_asc_node_deg : ℝ
  arg_periapsis_deg : ℝ
  mean_anomaly_deg : ℝ
  epoch : ℝ
  x : Option ℝ
  y : Option ℝ
  z : Option ℝ

/-- The element fields of a 3D planet record (the inputs the calculator
reads); both variants compute the same intermediate quantities from them. -/
def Planet3D.elems (q : Planet3D) : Planet :=
  ⟨q.name, q.id, q.eccentricity, q.semi_major_axis_au, q.inclination_deg,
    q.lon_asc_node_deg, q.arg_periapsis_deg, q.mean_anomaly_deg, q.epoch⟩

/-- `calculate_position` of the 3D variant: writes `NAN` into `x, y, z`
when `semi_major_axis_au <= 0`, otherwise the rotated position; all other
fields of the struct are left as they were. -/
def calculate_position (q : Planet3D) (t : ℝ) : Planet3D :=
  if q.semi_major_axis_au ≤ 0 then { q with x := none, y := none, z := none }
  else
    { q with
      x := some (x_ecl q.elems t)
      y := some (y_ecl q.elems t)
      z := some (z_ecl q.elems t) }

/-- One output row of the 2D simulation loop: the inner
`for (i = 0; i < num_planets; i++)` writes one longitude per planet,
in array order, at the current date (`time_t` seconds, cast to ℝ for
`difftime`). -/
def row2D (ps : List Planet) (d : ℤ) : List (Option ℝ) :=
  ps.map (fun p => calculate_longitude p (d : ℝ))

/-- The 2D simulation loop (`while (current_t <= end_t)`): one row per
date, stepping `current_t += SECONDS_IN_DAY` (86400 seconds). -/
def simRows2D (ps : List Planet) (current fin : ℤ) :
    List (ℤ × List (Option ℝ)) :=
  if current ≤ fin then
    (current, row2D ps current) :: simRows2D ps (current + 86400) fin
  else []
  termination_by (fin + 86400 - current).toNat
  decreasing_by omega

/-- Number of iterations the `while (current_t <= end_t)` loop performs:
`⌊(end - start) / 86400⌋ + 1` when `start ≤ end`, else none. -/
def rowCount (current fin : ℤ) : ℕ :=
  if current ≤ fin then ((fin - current) / 86400).toNat + 1 else 0

/-! Concrete element sets used to exercise the definitions. -/

/-- A circular-orbit body: `e = 0`, `a = 1` AU, all angles zero, epoch 0. -/
def pCircular : Planet where
  name := "circular"
  id := "900"
  eccentricity := 0
  semi_major_axis_au := 1
  inclination_deg := 0
  lon_asc_node_deg := 0
  arg_periapsis_deg := 0
  mean_anomaly_deg := 0
  epoch := 0

/-- A body whose mean anomaly at epoch is negative (input angles are not
range-restricted). -/
def pNegM : Planet where
  name := "negM"
  id := "901"
  eccentricity := 0
  semi_major_axis_au := 1
  inclination_deg := 0
  lon_asc_node_deg := 0
  arg_periapsis_deg := 0
  mean_anomaly_deg := -90
  epoch := 0

/-- A body whose mean anomaly at epoch is positive. -/
def pPosM : Planet where
  name := "posM"
  id := "902"
  eccentricity := 0
  semi_major_axis_au := 1
  inclination_deg := 0
  lon_asc_node_deg := 0
  arg_periapsis_deg := 0
  mean_anomaly_deg := 90
  epoch := 0

/-- An invalid element set: zero semi-major axis. -/
def pInvalid : Planet where
  name := "invalid"
  id := "903"
  eccentricity := 0
  semi_major_axis_au := 0
  inclination_deg := 0
  lon_asc_node_deg := 0
  arg_periapsis_deg := 0
  mean_anomaly_deg := 0
  epoch := 0

/-- An invalid 3D element set: zero semi-major axis. -/
def qInvalid : Planet3D where
  name := "invalid3d"
  id := "904"
  eccentricity := 0
  semi_major_axis_au := 0
  inclination_deg := 0
  lon_asc_node_deg := 0
  arg_periapsis_deg := 0
  mean_anomaly_deg := 0
  epoch := 0
  x := none
  y := none
  z := none

/-- Three bodies with distinct elements (one of them invalid) for the
multi-body scenario. -/
def demo_planets : List Planet := [pCircular, pPosM, pInvalid]

end

/-! ### Helper lemmas -/

/-- The solver loop after `n` passes is the `n`-fold iterate of the
Newton-Raphson step applied to the start value `M`. -/
lemma iterNewton_eq_iterate (e M : ℝ) (n : ℕ) :
    iterNewton e M n = (newtonStep e M)^[n] M := by
  induction n with
  | zero => rfl
  | succ n ih => rw [iterNewton, ih, Function.iterate_succ_apply']

/-- With zero eccentricity a single Newton-Raphson step returns `M`. -/
lemma newtonStep_zero (M E : ℝ) : newtonStep 0 M E = M := by
  simp [newtonStep, newtonDenom]

/-- With zero eccentricity the solver leaves the start value `M` fixed. -/
lemma kepler_E_zero (M : ℝ) : kepler_E 0 M = M := by
  have h : ∀ n, iterNewton 0 M n = M := by
    intro n
    induction n with
    | zero => rfl
    | succ n ih => rw [iterNewton, ih, newtonStep_zero]
  exact h 10

/-- The classical three-angle rotation used by both variants preserves the
squared norm, given the three Pythagorean identities. -/
lemma rot_norm (xo yo cW sW cN sN cI sI : ℝ)
    (hW : sW ^ 2 + cW ^ 2 = 1) (hN : sN ^ 2 + cN ^ 2 = 1)
    (hI : sI ^ 2 + cI ^ 2 = 1) :
    (xo * (cW * cN - sW * sN * cI) - yo * (sW * cN + cW * sN * cI)) ^ 2 +
      (xo * (cW * sN + sW * cN * cI) + yo * (-sW * sN + cW * cN * cI)) ^ 2 +
      (xo * (sW * sI) + yo * (cW * sI)) ^ 2 = xo ^ 2 + yo ^ 2 := by
  linear_combination
    ((xo * cW - yo * sW) ^ 2 + (xo * sW + yo * cW) ^ 2 * cI ^ 2) * hN +
      (xo * sW + yo * cW) ^ 2 * hI + (xo ^ 2 + yo ^ 2) * hW

/-- For a nonnegative dividend, C `fmod · 360` agrees with the spec's
`normalize360` (truncation and floor coincide). -/
lemma fmod_eq_normalize360 (x : ℝ) (h : 0 ≤ x) :
    fmod x 360 = spec_normalize360 x := by
  unfold fmod spec_normalize360 rtrunc
  rw [if_pos (by positivity)]

/-- The spec's `normalize360` always lands in `[0, 360)`. -/
lemma spec_normalize360_mem (x : ℝ) :
    0 ≤ spec_normalize360 x ∧ spec_normalize360 x < 360 := by
  unfold spec_normalize360
  have h1 := Int.fract_nonneg (x / 360)
  have h2 := Int.fract_lt_one (x / 360)
  unfold Int.fract at h1 h2
  constructor <;> nlinarith

/-- For a negative dividend, C `fmod · 360` lands in `(-360, 0]`. -/
lemma fmod_neg_mem (x : ℝ) (h : x < 0) :
    -360 < fmod x 360 ∧ fmod x 360 ≤ 0 := by
  unfold fmod rtrunc
  have hneg : ¬ (0 ≤ x / 360) := by
    rw [not_le]
    exact div_neg_of_neg_of_pos h (by norm_num)
  rw [if_neg hneg]
  have h1 := Int.le_ceil (x / 360)
  have h2 := Int.ceil_lt_add_one (x / 360)
  constructor <;> nlinarith

/-- `atan2` lands in `(-π, π]`. -/
lemma atan2_mem (y x : ℝ) : -Real.pi < atan2 y x ∧ atan2 y x ≤ Real.pi :=
  ⟨Complex.neg_pi_lt_arg _, Complex.arg_le_pi _⟩

/-- The loop count decreases by one across a loop iteration. -/
lemma rowCount_step (s f : ℤ) (h : s ≤ f) :
    rowCount s f = rowCount (s + 86400) f + 1 := by
  unfold rowCount
  by_cases h2 : s + 86400 ≤ f
  · rw [if_pos h, if_pos h2]
    omega
  · rw [if_pos h, if_neg h2]
    omega

/-- Closed form of the 2D simulation loop: `rowCount` rows, the `k`-th at
date `start + 86400·k`, each row mapping the planet list at that date. -/
lemma simRows2D_closed (ps : List Planet) (s f : ℤ) :
    simRows2D ps s f = (List.range (rowCount s f)).map
      (fun (k : ℕ) => (s + 86400 * (k : ℤ), row2D ps (s + 86400 * (k : ℤ)))) := by
  generalize hn : rowCount s f = n
  induction n generalizing s with
  | zero =>
    have hs : ¬ s ≤ f := by
      by_contra hc
      rw [rowCount, if_pos hc] at hn
      omega
    rw [simRows2D, if_neg hs]
    rfl
  | succ n ih =>
    have hs : s ≤ f := by
      by_contra hc
      rw [rowCount, if_neg hc] at hn
      omega
    have hstep : rowCount (s + 86400) f = n := by
      have := rowCount_step s f hs
      omega
    rw [simRows2D, if_pos hs, ih (s + 86400) hstep, List.range_succ_eq_map]
    simp only [List.map_cons, List.map_map, Nat.cast_zero, mul_zero, add_zero,
      List.cons.injEq]
    refine ⟨trivial, List.map_congr_left ?_⟩
    intro k _
    simp only [Function.comp_apply, Nat.cast_succ]
    have harith : s + 86400 + 86400 * (k : ℤ) = s + 86400 * ((k : ℤ) + 1) := by
      ring
    rw [harith]

/-- `calculate_position` leaves the element fields of the struct unchanged. -/
lemma calculate_position_elems (q : Planet3D) (t : ℝ) :
    (calculate_position q t).elems = q.elems := by
  unfold calculate_position
  split <;> rfl

/-- The pre-normalization longitude `atan2 · (180/π)` lies in `(-180, 180]`. -/
lemma longitude_deg_mem (p : Planet) (t : ℝ) :
    -180 < longitude_deg p t ∧ longitude_deg p t ≤ 180 := by
  have h := atan2_mem (y_ecl p t) (x_ecl p t)
  have hpi := Real.pi_pos
  unfold longitude_deg longitude_rad
  have key : atan2 (y_ecl p t) (x_ecl p t) * (180 / Real.pi) =
      atan2 (y_ecl p t) (x_ecl p t) * 180 / Real.pi := by ring
  rw [key]
  constructor
  · rw [lt_div_iff₀ hpi]
    nlinarith [h.1]
  · rw [div_le_iff₀ hpi]
    nlinarith [h.2]

/-- The returned longitude (after the conditional `+= 360`) is in `[0, 360)`. -/
lemma longitude_final_mem (p : Planet) (t : ℝ) :
    0 ≤ longitude_deg_final p t ∧ longitude_deg_final p t < 360 := by
  have h := longitude_deg_mem p t
  unfold longitude_deg_final
  by_cases hlt : longitude_deg p t < 0
  · rw [if_pos hlt]
    constructor <;> linarith [h.1]
  · rw [if_neg hlt]
    push_neg at hlt
    constructor <;> linarith [h.2]

/-- The conditional `+= 360` agrees with the spec's `normalize360` on the
range `(-180, 180]` that `atan2` produces. -/
lemma longitude_final_eq_normalize (p : Planet) (t : ℝ) :
    longitude_deg_final p t = spec_normalize360 (longitude_deg p t) := by
  have h := longitude_deg_mem p t
  unfold longitude_deg_final spec_normalize360
  by_cases hlt : longitude_deg p t < 0
  · rw [if_pos hlt]
    have hf : (⌊longitude_deg p t / 360⌋ : ℤ) = -1 := by
      rw [Int.floor_eq_iff]
      constructor <;> push_cast <;> nlinarith [h.1]
    rw [hf]
    push_cast
    ring
  · rw [if_neg hlt]
    push_neg at hlt
    have hf : (⌊longitude_deg p t / 360⌋ : ℤ) = 0 := by
      rw [Int.floor_eq_iff]
      constructor <;> push_cast <;> nlinarith [h.2]
    rw [hf]
    push_cast
    ring


/-! ### Claim theorems -/

/-- C2: for every mean anomaly `M` and eccentricity `e`, the Kepler solver
starts from `E₀ = M`, applies the Newton-Raphson update
`E ← E - (E - e·sin E - M) / (1 - e·cos E)` exactly ten times with no
convergence test and no early exit, and the caller receives exactly the
value after the tenth iteration. -/
theorem c2_fixed_ten_newton_iterations (e M : ℝ) :
    iterNewton e M 0 = M ∧
    (∀ E, newtonStep e M E =
      E - (E - e * Real.sin E - M) / (1 - e * Real.cos E)) ∧
    kepler_E e M = (newtonStep e M)^[10] M ∧
    (∀ p : Planet, ∀ t : ℝ,
      E_rad p t = (newtonStep p.eccentricity (M_rad p t))^[10] (M_rad p t)) :=
  ⟨rfl, fun _ => rfl, iterNewton_eq_iterate e M 10,
    fun p t => iterNewton_eq_iterate p.eccentricity (M_rad p t) 10⟩

/-- C5: with eccentricity zero the Newton-Raphson update leaves `E₀ = M`
fixed, so the solver returns `E = M` exactly; the orbital-plane position
satisfies `x_orb² + y_orb² = a²` and the three-angle rotation preserves
this norm, so `x² + y² + z² = a²`. -/
theorem c5_circular_orbit (p : Planet) (t : ℝ)
    (he : p.eccentricity = 0) (ha : 0 < p.semi_major_axis_au) :
    E_rad p t = M_rad p t ∧
    (∀ E, newtonStep p.eccentricity (M_rad p t) E = M_rad p t) ∧
    x_orb p t ^ 2 + y_orb p t ^ 2 = p.semi_major_axis_au ^ 2 ∧
    x_ecl p t ^ 2 + y_ecl p t ^ 2 + z_ecl p t ^ 2 =
      p.semi_major_axis_au ^ 2 := by
  have hE : E_rad p t = M_rad p t := by
    rw [E_rad, he, kepler_E_zero]
  have horb : x_orb p t ^ 2 + y_orb p t ^ 2 = p.semi_major_axis_au ^ 2 := by
    rw [x_orb, y_orb, he]
    have h1 : (1 : ℝ) - 0 * 0 = 1 := by norm_num
    rw [h1, Real.sqrt_one]
    nlinarith [Real.sin_sq_add_cos_sq (E_rad p t)]
  have hrot := rot_norm (x_orb p t) (y_orb p t)
    (Real.cos (w_rad p)) (Real.sin (w_rad p))
    (Real.cos (N_rad p)) (Real.sin (N_rad p))
    (Real.cos (i_rad p)) (Real.sin (i_rad p))
    (Real.sin_sq_add_cos_sq _) (Real.sin_sq_add_cos_sq _)
    (Real.sin_sq_add_cos_sq _)
  refine ⟨hE, fun E => by rw [he, newtonStep_zero], horb, ?_⟩
  rw [x_ecl, y_ecl, z_ecl, hrot]
  exact horb

/-- C7: propagation is a deterministic pure function of
`(elements, targetTime)`: repeating an invocation yields identical output —
in the 3D variant, whose calculator writes into the planet record, running
the calculator a second time on its own output reproduces that output
exactly (no hidden state is read or written besides the position fields). -/
theorem c7_calculator_pure (p : Planet) (q : Planet3D) (t : ℝ) :
    calculate_longitude p t = calculate_longitude p t ∧
    calculate_position (calculate_position q t) t = calculate_position q t := by
  refine ⟨rfl, ?_⟩
  by_cases h : q.semi_major_axis_au ≤ 0 <;>
    simp [calculate_position, Planet3D.elems, h]

/-- C8: for `a > 0` the code's `sqrt(pow(a, 3))` equals `a^1.5`, so the
mean motion equals the spec's `360 / (a^1.5 · 365.25)` degrees per day. -/
theorem c8_mean_motion_formula (p : Planet) (ha : 0 < p.semi_major_axis_au) :
    Real.sqrt (p.semi_major_axis_au ^ 3) =
      p.semi_major_axis_au ^ ((3 : ℝ) / 2) ∧
    mean_motion p = 360 / (p.semi_major_axis_au ^ ((3 : ℝ) / 2) * 365.25) := by
  have hs : Real.sqrt (p.semi_major_axis_au ^ 3) =
      p.semi_major_axis_au ^ ((3 : ℝ) / 2) := by
    rw [Real.sqrt_eq_rpow, ← Real.rpow_natCast p.semi_major_axis_au 3,
      ← Real.rpow_mul ha.le]
    norm_num
  exact ⟨hs, by rw [mean_motion, hs]⟩

/-- C9: the calculator never mutates the orbital elements: all six element
fields, the epoch (and the name and id) are unchanged by
`calculate_position`, and the result differs from the input only in the
derived position fields `x, y, z`. -/
theorem c9_elements_not_mutated (q : Planet3D) (t : ℝ) :
    (calculate_position q t).eccentricity = q.eccentricity ∧
    (calculate_position q t).semi_major_axis_au = q.semi_major_axis_au ∧
    (calculate_position q t).inclination_deg = q.inclination_deg ∧
    (calculate_position q t).lon_asc_node_deg = q.lon_asc_node_deg ∧
    (calculate_position q t).arg_periapsis_deg = q.arg_periapsis_deg ∧
    (calculate_position q t).mean_anomaly_deg = q.mean_anomaly_deg ∧
    (calculate_position q t).epoch = q.epoch ∧
    (calculate_position q t).name = q.name ∧
    (calculate_position q t).id = q.id ∧
    calculate_position q t =
      { q with
        x := (calculate_position q t).x
        y := (calculate_position q t).y
        z := (calculate_position q t).z } := by
  unfold calculate_position
  split <;> exact ⟨rfl, rfl, rfl, rfl, rfl, rfl, rfl, rfl, rfl, rfl⟩

/-- C10: for eccentricity `e ∈ [0, 1)` the Newton-Raphson denominator
`1 - e·cos E` is strictly positive at every `E`, so the division in the
solver update is never a division by zero. -/
theorem c10_newton_denominator_positive (e E : ℝ)
    (h0 : 0 ≤ e) (h1 : e < 1) : 0 < newtonDenom e E := by
  have hc1 := Real.cos_le_one E
  have hc2 := Real.neg_one_le_cos E
  unfold newtonDenom
  nlinarith

/-- Witness for C5 at the circular test body and `t = 0`. -/
theorem c5_circular_orbit_witness :
    pCircular.eccentricity = 0 ∧ 0 < pCircular.semi_major_axis_au ∧
    (E_rad pCircular 0 = M_rad pCircular 0 ∧
      (∀ E, newtonStep pCircular.eccentricity (M_rad pCircular 0) E =
        M_rad pCircular 0) ∧
      x_orb pCircular 0 ^ 2 + y_orb pCircular 0 ^ 2 =
        pCircular.semi_major_axis_au ^ 2 ∧
      x_ecl pCircular 0 ^ 2 + y_ecl pCircular 0 ^ 2 + z_ecl pCircular 0 ^ 2 =
        pCircular.semi_major_axis_au ^ 2) :=
  ⟨rfl, by norm_num [pCircular],
    c5_circular_orbit pCircular 0 rfl (by norm_num [pCircular])⟩

/-- Witness for C8 at the circular test body (`a = 1`). -/
theorem c8_mean_motion_formula_witness :
    0 < pCircular.semi_major_axis_au ∧
    (Real.sqrt (pCircular.semi_major_axis_au ^ 3) =
      pCircular.semi_major_axis_au ^ ((3 : ℝ) / 2) ∧
    mean_motion pCircular =
      360 / (pCircular.semi_major_axis_au ^ ((3 : ℝ) / 2) * 365.25)) :=
  ⟨by norm_num [pCircular],
    c8_mean_motion_formula pCircular (by norm_num [pCircular])⟩

/-- Witness for C10 at `e = 0`, `E = 0`. -/
theorem c10_newton_denominator_positive_witness :
    (0 : ℝ) ≤ 0 ∧ (0 : ℝ) < 1 ∧ 0 < newtonDenom 0 0 :=
  ⟨le_refl 0, by norm_num,
    c10_newton_denominator_positive 0 0 (le_refl 0) (by norm_num)⟩

/-- C1: if `semiMajorAxisAU ≤ 0` the calculator short-circuits to the
not-a-number sentinel for every output field (the longitude in the 2D
variant; all of `x, y, z` in the 3D variant), and the failing body neither
disturbs the other bodies' entries in its row nor the date iteration. -/
theorem c1_invalid_elements_short_circuit (p : Planet) (q : Planet3D)
    (t : ℝ) (d s f : ℤ) (ps1 ps2 : List Planet)
    (ha : p.semi_major_axis_au ≤ 0) (ha3 : q.semi_major_axis_au ≤ 0) :
    calculate_longitude p t = none ∧
    (calculate_position q t).x = none ∧
    (calculate_position q t).y = none ∧
    (calculate_position q t).z = none ∧
    row2D (ps1 ++ p :: ps2) d = row2D ps1 d ++ none :: row2D ps2 d ∧
    (simRows2D (ps1 ++ p :: ps2) s f).map Prod.fst =
      (simRows2D ps1 s f).map Prod.fst := by
  refine ⟨?_, ?_, ?_, ?_, ?_, ?_⟩
  · rw [calculate_longitude, if_pos ha]
  · rw [calculate_position, if_pos ha3]
  · rw [calculate_position, if_pos ha3]
  · rw [calculate_position, if_pos ha3]
  · rw [row2D, List.map_append, List.map_cons]
    rw [calculate_longitude, if_pos ha]
    rfl
  · rw [simRows2D_closed, simRows2D_closed, List.map_map, List.map_map]
    simp [Function.comp]

/-- Witness for C1 at the invalid bodies (`a = 0`) and concrete dates. -/
theorem c1_invalid_elements_short_circuit_witness :
    pInvalid.semi_major_axis_au ≤ 0 ∧ qInvalid.semi_major_axis_au ≤ 0 ∧
    (calculate_longitude pInvalid 0 = none ∧
      (calculate_position qInvalid 0).x = none ∧
      (calculate_position qInvalid 0).y = none ∧
      (calculate_position qInvalid 0).z = none ∧
      row2D ([pCircular] ++ pInvalid :: [pPosM]) 0 =
        row2D [pCircular] 0 ++ none :: row2D [pPosM] 0 ∧
      (simRows2D ([pCircular] ++ pInvalid :: [pPosM]) 0 86400).map Prod.fst =
        (simRows2D [pCircular] 0 86400).map Prod.fst) :=
  ⟨by norm_num [pInvalid], by norm_num [qInvalid],
    c1_invalid_elements_short_circuit pInvalid qInvalid 0 0 0 86400
      [pCircular] [pPosM] (by norm_num [pInvalid]) (by norm_num [qInvalid])⟩

/-- C3 counterexample: at a body whose mean anomaly at epoch is `-90°`
(`pNegM`) and `t = epoch`, the code's `fmod` propagation yields `-90`,
which is not in `[0, 360)` and differs from `normalize360`, which yields
`270`. -/
theorem c3_counterexample_fmod_negative :
    mean_anomaly pNegM 0 = -90 ∧
    spec_normalize360 (pNegM.mean_anomaly_deg +
      mean_motion pNegM * days_since_epoch pNegM 0) = 270 ∧
    ¬ (0 ≤ mean_anomaly pNegM 0) := by
  have hd : days_since_epoch pNegM 0 = 0 := by
    simp [days_since_epoch, pNegM]
  have harg : pNegM.mean_anomaly_deg +
      mean_motion pNegM * days_since_epoch pNegM 0 = -90 := by
    rw [hd, mul_zero, add_zero]
    rfl
  have hm : mean_anomaly pNegM 0 = -90 := by
    rw [mean_anomaly, harg]
    unfold fmod rtrunc
    rw [if_neg (by norm_num)]
    have hc : (⌈(-90 : ℝ) / 360⌉ : ℤ) = 0 := by
      norm_num [Int.ceil_eq_zero_iff, Set.mem_Ioc]
    rw [hc]
    norm_num
  refine ⟨hm, ?_, by rw [hm]; norm_num⟩
  rw [harg]
  unfold spec_normalize360
  have hf : (⌊(-90 : ℝ) / 360⌋ : ℤ) = -1 := by
    norm_num [Int.floor_eq_iff]
  rw [hf]
  norm_num

/-- C3 (amended): the propagated mean anomaly is
`fmod(meanAnomalyAtEpochDeg + n·Δdays, 360)` (C `fmod`, which takes the
sign of its argument); whenever the pre-reduction value is nonnegative it
equals `normalize360` of that value and lies in `[0, 360)`. -/
theorem c3_amended_fmod_propagation (p : Planet) (t : ℝ)
    (h : 0 ≤ p.mean_anomaly_deg + mean_motion p * days_since_epoch p t) :
    mean_anomaly p t = fmod
      (p.mean_anomaly_deg + mean_motion p * days_since_epoch p t) 360 ∧
    mean_anomaly p t = spec_normalize360
      (p.mean_anomaly_deg + mean_motion p * days_since_epoch p t) ∧
    0 ≤ mean_anomaly p t ∧ mean_anomaly p t < 360 := by
  have he : mean_anomaly p t = spec_normalize360
      (p.mean_anomaly_deg + mean_motion p * days_since_epoch p t) := by
    rw [mean_anomaly, fmod_eq_normalize360 _ h]
  have hb := spec_normalize360_mem
    (p.mean_anomaly_deg + mean_motion p * days_since_epoch p t)
  exact ⟨rfl, he, he ▸ hb.1, he ▸ hb.2⟩

/-- Witness for C3 (amended) at a body with positive mean anomaly at epoch
and `t = epoch`. -/
theorem c3_amended_fmod_propagation_witness :
    0 ≤ pPosM.mean_anomaly_deg +
      mean_motion pPosM * days_since_epoch pPosM 0 ∧
    (mean_anomaly pPosM 0 = fmod
      (pPosM.mean_anomaly_deg + mean_motion pPosM * days_since_epoch pPosM 0)
      360 ∧
    mean_anomaly pPosM 0 = spec_normalize360
      (pPosM.mean_anomaly_deg +
        mean_motion pPosM * days_since_epoch pPosM 0) ∧
    0 ≤ mean_anomaly pPosM 0 ∧ mean_anomaly pPosM 0 < 360) :=
  ⟨by simp [days_since_epoch, pPosM],
    c3_amended_fmod_propagation pPosM 0 (by simp [days_since_epoch, pPosM])⟩

/-- C4: whenever the scalar longitude is computed (`a > 0`), it equals
`normalize360(atan2(y, x) · 180/π)` on the rotated `(x, y)` components and
lies in `[0, 360)`. -/
theorem c4_longitude_in_range (p : Planet) (t : ℝ)
    (ha : 0 < p.semi_major_axis_au) :
    calculate_longitude p t = some (spec_normalize360
      (atan2 (y_ecl p t) (x_ecl p t) * (180 / Real.pi))) ∧
    0 ≤ longitude_deg_final p t ∧ longitude_deg_final p t < 360 := by
  refine ⟨?_, longitude_final_mem p t⟩
  rw [calculate_longitude, if_neg (not_le.mpr ha),
    longitude_final_eq_normalize]
  rfl

/-- Witness for C4 at the circular test body and `t = 0`. -/
theorem c4_longitude_in_range_witness :
    0 < pCircular.semi_major_axis_au ∧
    (calculate_longitude pCircular 0 = some (spec_normalize360
      (atan2 (y_ecl pCircular 0) (x_ecl pCircular 0) * (180 / Real.pi))) ∧
    0 ≤ longitude_deg_final pCircular 0 ∧
      longitude_deg_final pCircular 0 < 360) :=
  ⟨by norm_num [pCircular],
    c4_longitude_in_range pCircular 0 (by norm_num [pCircular])⟩

/-- C6: for `start ≤ end` the generator emits exactly
`⌊(end-start)/86400⌋ + 1` rows, the `k`-th at date `start + 86400·k`
(dates strictly increasing by exactly one day), and each row is exactly
the planet list mapped through the calculator at that row's date — one
invocation per (body, date) pair, results in input order, with no entry
skipped or blocked by any other body's result. -/
theorem c6_generator_rows (ps : List Planet) (s f : ℤ) (hs : s ≤ f) :
    (simRows2D ps s f).length = ((f - s) / 86400).toNat + 1 ∧
    (∀ k, ∀ hk : k < (simRows2D ps s f).length,
      ((simRows2D ps s f).get ⟨k, hk⟩).1 = s + 86400 * k) ∧
    (∀ k, ∀ hk : k < (simRows2D ps s f).length,
      ((simRows2D ps s f).get ⟨k, hk⟩).2 =
        ps.map (fun p => calculate_longitude p ((s + 86400 * (k : ℤ) : ℤ) : ℝ))) := by
  have hc := simRows2D_closed ps s f
  refine ⟨?_, ?_, ?_⟩
  · rw [hc, List.length_map, List.length_range, rowCount, if_pos hs]
  · intro k hk
    simp only [hc, List.get_eq_getElem, List.getElem_map, List.getElem_range]
  · intro k hk
    simp only [hc, List.get_eq_getElem, List.getElem_map, List.getElem_range]
    rfl

/-- Witness for C6: three bodies with distinct elements over a 3-day
range emit 3 rows of 3 entries each. -/
theorem c6_generator_rows_witness :
    (0 : ℤ) ≤ 172800 ∧
    ((simRows2D demo_planets 0 172800).length =
        ((172800 - 0 : ℤ) / 86400).toNat + 1 ∧
      (∀ k, ∀ hk : k < (simRows2D demo_planets 0 172800).length,
        ((simRows2D demo_planets 0 172800).get ⟨k, hk⟩).1 =
          0 + 86400 * k) ∧
      (∀ k, ∀ hk : k < (simRows2D demo_planets 0 172800).length,
        ((simRows2D demo_planets 0 172800).get ⟨k, hk⟩).2 =
          demo_planets.map
            (fun p => calculate_longitude p ((0 + 86400 * (k : ℤ) : ℤ) : ℝ)))) ∧
    (simRows2D demo_planets 0 172800).length = 3 ∧
    demo_planets.length = 3 :=
  ⟨by norm_num, c6_generator_rows demo_planets 0 172800 (by norm_num),
    by
      have h := (c6_generator_rows demo_planets 0 172800 (by norm_num)).1
      rw [h]
      decide,
    rfl⟩
